import Mathlib

/-!
Shallow embedding of the Aura Stylist orchestration core
(services/geminiService.ts, services/imageValidationService.ts, and the
styling orchestrator in the App screen controller), together with proofs
of the specification's testable properties.

Conventions of the embedding:
* JavaScript exceptions become `Except` values.  Every thrown error is
  modelled by `JsError`; an instance of the source's GeminiAPIError class
  carries its `code` and `retryable` fields, a plain Error carries
  `code := ""` and `retryable := false` (the class defaults).
* An async operation handed to the retry wrapper is modelled as a function
  from the attempt number (0-based) to the outcome of that invocation.
* Math.random() outcomes and other environment inputs (remote responses,
  image decoding, canvas encoding, file reading) are explicit parameters.
* Machine numbers are Nat or rationals; Math.round x = floor (x + 1/2).
-/

namespace AuraStylist

/-- Model of a thrown JS error.  For a GeminiAPIError the source sets
name, message, a string code and a retryable flag; a plain Error is
modelled with the class defaults code = "" and retryable = false. -/
structure JsError where
  message : String
  code : String
  retryable : Bool
deriving Repr, DecidableEq

/-- RETRY_CONFIG from geminiService.ts: maxRetries 3, baseDelayMs 1000,
maxDelayMs 10000. -/
structure RetryConfig where
  maxRetries : Nat
  baseDelayMs : ℚ
  maxDelayMs : ℚ

def RETRY_CONFIG : RetryConfig :=
  { maxRetries := 3, baseDelayMs := 1000, maxDelayMs := 10000 }

/-- JS String.prototype.includes on lists of characters:
does the second list contain the first as a contiguous run? -/
def charsStartWith : List Char → List Char → Bool
  | [], _ => true
  | _ :: _, [] => false
  | a :: as, b :: bs => a = b && charsStartWith as bs

/-- Scan for an occurrence of the pattern anywhere in the text. -/
def charsInclude (pat : List Char) : List Char → Bool
  | [] => charsStartWith pat []
  | c :: rest => charsStartWith pat (c :: rest) || charsInclude pat rest

/-- String.prototype.toLowerCase for one character; every message this
code base produces or matches on is ASCII, so the ASCII case suffices. -/
def jsCharToLower (c : Char) : Char :=
  if 'A' ≤ c ∧ c ≤ 'Z' then Char.ofNat (c.toNat + 32) else c

/-- message.toLowerCase() as a character list. -/
def jsToLowerChars (s : String) : List Char :=
  s.toList.map jsCharToLower

/-- isRetryableError from geminiService.ts: lower-case the message and
look for the network / timeout / rate-limit / 5xx substrings.  The
function never reads the GeminiAPIError retryable field. -/
def isRetryableError (e : JsError) : Bool :=
  let m := jsToLowerChars e.message
  charsInclude "network".toList m ||
  charsInclude "timeout".toList m ||
  charsInclude "rate limit".toList m ||
  charsInclude "503".toList m ||
  charsInclude "502".toList m ||
  charsInclude "500".toList m ||
  charsInclude "fetch failed".toList m

/-- getRetryDelay from geminiService.ts.  random is the Math.random()
draw in [0,1); delay = baseDelayMs * 2^attempt, jitter = random * 0.3 *
delay, result = min (delay + jitter) maxDelayMs. -/
def getRetryDelay (random : ℚ) (attempt : Nat) : ℚ :=
  let delay := RETRY_CONFIG.baseDelayMs * 2 ^ attempt
  let jitter := random * (3 / 10) * delay
  min (delay + jitter) RETRY_CONFIG.maxDelayMs

/-- The pre-jitter delay of getRetryDelay (the local `delay` binding). -/
def getRetryDelayPreJitter (attempt : Nat) : ℚ :=
  RETRY_CONFIG.baseDelayMs * 2 ^ attempt

/-- The terminal error thrown at the bottom of withRetry: the last
underlying failure wrapped with code MAX_RETRIES_EXCEEDED. -/
def maxRetriesExceededError (context : String) (maxRetries : Nat)
    (last : JsError) : JsError :=
  { message := context ++ " failed after " ++ toString (maxRetries + 1) ++
      " attempts: " ++ last.message
    code := "MAX_RETRIES_EXCEEDED"
    retryable := false }

/-- The retry loop of withRetry.  `attempt` is the loop counter and
`fuel` = maxRetries - attempt, so the source's `attempt < maxRetries`
retry condition is exactly `fuel > 0`.  Returns the number of times the
operation was invoked together with the outcome of the loop (the success
value, or the last error when the loop breaks or runs out of attempts). -/
def withRetryAux (op : Nat → Except JsError α) :
    Nat → Nat → Nat × Except JsError α
  | attempt, fuel =>
    match op attempt, fuel with
    | Except.ok v, _ => (1, Except.ok v)
    | Except.error e, fuel + 1 =>
      if isRetryableError e then
        let p := withRetryAux op (attempt + 1) fuel
        (p.1 + 1, p.2)
      else (1, Except.error e)
    | Except.error e, 0 => (1, Except.error e)

/-- withRetry from geminiService.ts.  Returns how many times the
operation was invoked and either the success value or the thrown
GeminiAPIError; every failure exit wraps the last underlying error as
MAX_RETRIES_EXCEEDED. -/
def withRetry (op : Nat → Except JsError α) (context : String) :
    Nat × Except JsError α :=
  let p := withRetryAux op 0 RETRY_CONFIG.maxRetries
  (p.1,
    match p.2 with
    | Except.ok v => Except.ok v
    | Except.error e =>
      Except.error (maxRetriesExceededError context RETRY_CONFIG.maxRetries e))

/-- The delay + jitter sum computed inside getRetryDelay before the
maxDelayMs cap is applied. -/
def getRetryDelayUncapped (random : ℚ) (attempt : Nat) : ℚ :=
  let delay := RETRY_CONFIG.baseDelayMs * 2 ^ attempt
  delay + random * (3 / 10) * delay

/-! The six GeminiAPIError values thrown inside the operations handed to
withRetry in geminiService.ts. -/

/-- GeminiAPIError thrown by analyzeItem when response.text is falsy. -/
def emptyResponseItemError : JsError :=
  ⟨"Empty response from AI model", "EMPTY_RESPONSE", true⟩

/-- GeminiAPIError thrown by analyzeItem when JSON.parse throws. -/
def parseItemError : JsError :=
  ⟨"Failed to parse AI response", "PARSE_ERROR", false⟩

/-- GeminiAPIError thrown by analyzeFashionDNA when response.text is falsy. -/
def emptyResponseDnaError : JsError :=
  ⟨"Empty response from fashion analysis", "EMPTY_RESPONSE", true⟩

/-- GeminiAPIError thrown by analyzeFashionDNA when JSON.parse throws. -/
def parseDnaError : JsError :=
  ⟨"Failed to parse fashion DNA analysis", "PARSE_ERROR", false⟩

/-- GeminiAPIError thrown by generateOutfitImage when no response part
carries inline image data. -/
def noImageDataError : JsError :=
  ⟨"No image data in response", "NO_IMAGE_DATA", true⟩

/-- GeminiAPIError thrown by editOutfitImage when no response part
carries inline image data. -/
def editFailedError : JsError :=
  ⟨"Failed to edit image", "EDIT_FAILED", true⟩

/-! Data model from types.ts. -/

/-- StyleType enum. -/
inductive StyleType where
  | Casual
  | Business
  | NightOut
deriving Repr, DecidableEq

/-- One entry of AnalysisResult.suggestions. -/
structure SuggestionSeed where
  type : StyleType
  description : String
  colorsUsed : List String
deriving Repr, DecidableEq

/-- AnalysisResult from types.ts. -/
structure AnalysisResult where
  itemName : String
  originalPalette : List String
  complimentaryPalette : List String
  description : String
  suggestions : List SuggestionSeed
deriving Repr, DecidableEq

/-- StyleMovement from types.ts. -/
structure StyleMovement where
  name : String
  period : String
  characteristics : List String
deriving Repr, DecidableEq

/-- DesignerInfluence from types.ts. -/
structure DesignerInfluence where
  name : String
  era : String
  signature : String
  relevance : String
deriving Repr, DecidableEq

/-- FashionDNA from types.ts; the investmentPotential string union is
modelled as a plain string. -/
structure FashionDNA where
  primaryEra : String
  eraYearRange : String
  styleMovements : List StyleMovement
  designerInfluences : List DesignerInfluence
  silhouetteAnalysis : String
  fabricIntelligence : String
  culturalContext : String
  modernInterpretation : String
  investmentPotential : String
  styleArchetype : String
  editorialNotes : String
deriving Repr, DecidableEq

/-- Response-handling body of one analyzeItem attempt, from the closure
handed to withRetry in geminiService.ts.  The remote text (response.text)
is an environment input: none models an absent text field, and a JS falsy
check also treats the empty string as no content.  JSON.parse is the
external JSON primitive, abstracted as a partial parse function. -/
def analyzeItemAttempt (jsonParse : String → Option AnalysisResult)
    (text : Option String) : Except JsError AnalysisResult :=
  match text with
  | none => Except.error emptyResponseItemError
  | some t =>
    if t.isEmpty then Except.error emptyResponseItemError
    else
      match jsonParse t with
      | some r => Except.ok r
      | none => Except.error parseItemError

/-- analyzeItem from geminiService.ts: the attempt body above run through
withRetry with context "Clothing analysis"; service gives the remote text
returned on each attempt. -/
def analyzeItem (service : Nat → Option String)
    (jsonParse : String → Option AnalysisResult) :
    Nat × Except JsError AnalysisResult :=
  withRetry (fun attempt => analyzeItemAttempt jsonParse (service attempt))
    "Clothing analysis"

/-! Image validation service (imageValidationService.ts). -/

/-- ImageErrorCode enum. -/
inductive ImageErrorCode where
  | FILE_TOO_LARGE
  | INVALID_TYPE
  | DIMENSIONS_TOO_SMALL
  | DIMENSIONS_TOO_LARGE
  | CORRUPTED_IMAGE
  | PROCESSING_FAILED
  | PERMISSION_DENIED
deriving Repr, DecidableEq

/-- IMAGE_CONFIG constants. -/
structure ImageConfig where
  MAX_FILE_SIZE : Nat
  FILE_SIZE_WARNING : Nat
  MAX_DIMENSION : Nat
  TARGET_DIMENSION : Nat
  MIN_DIMENSION : Nat
  ALLOWED_TYPES : List String
  COMPRESSION_QUALITY : ℚ
  COMPRESSION_THRESHOLD : Nat

def IMAGE_CONFIG : ImageConfig :=
  { MAX_FILE_SIZE := 10 * 1024 * 1024
    FILE_SIZE_WARNING := 5 * 1024 * 1024
    MAX_DIMENSION := 4096
    TARGET_DIMENSION := 1920
    MIN_DIMENSION := 200
    ALLOWED_TYPES :=
      ["image/jpeg", "image/png", "image/webp", "image/heic", "image/heif"]
    COMPRESSION_QUALITY := 85 / 100
    COMPRESSION_THRESHOLD := 2 * 1024 * 1024 }

/-- The parts of a browser File object the validator reads. -/
structure JsFile where
  size : Nat
  type : String
deriving Repr, DecidableEq

/-- The decoded HTMLImageElement: its natural pixel dimensions. -/
structure HtmlImage where
  naturalWidth : Nat
  naturalHeight : Nat
deriving Repr, DecidableEq

/-- The only warning validateImageFile can push (its display text, built
with formatFileSize, is elided). -/
inductive ImageWarning where
  | largeFile
deriving Repr, DecidableEq

/-- ImageValidationResult; the human-readable error message (built with
formatFileSize, a float-formatting display helper) is elided and the
errorCode field carries the outcome. -/
structure ImageValidationResult where
  valid : Bool
  errorCode : Option ImageErrorCode
  warnings : List ImageWarning
deriving Repr, DecidableEq

/-- validateImageFile from imageValidationService.ts: hard byte-size
limit, soft size warning, MIME allow-list. -/
def validateImageFile (file : JsFile) : ImageValidationResult :=
  if file.size > IMAGE_CONFIG.MAX_FILE_SIZE then
    ⟨false, some ImageErrorCode.FILE_TOO_LARGE, []⟩
  else
    let warnings :=
      if file.size > IMAGE_CONFIG.FILE_SIZE_WARNING then [ImageWarning.largeFile]
      else []
    if IMAGE_CONFIG.ALLOWED_TYPES.contains file.type = false then
      ⟨false, some ImageErrorCode.INVALID_TYPE, []⟩
    else
      ⟨true, none, warnings⟩

/-- validateImageDimensions from imageValidationService.ts. -/
def validateImageDimensions (img : HtmlImage) : ImageValidationResult :=
  if img.naturalWidth < IMAGE_CONFIG.MIN_DIMENSION ∨
      img.naturalHeight < IMAGE_CONFIG.MIN_DIMENSION then
    ⟨false, some ImageErrorCode.DIMENSIONS_TOO_SMALL, []⟩
  else if img.naturalWidth > IMAGE_CONFIG.MAX_DIMENSION ∨
      img.naturalHeight > IMAGE_CONFIG.MAX_DIMENSION then
    ⟨false, some ImageErrorCode.DIMENSIONS_TOO_LARGE, []⟩
  else
    ⟨true, none, []⟩

/-- getMimeTypeFromDataUrl: match dataUrl against the anchored pattern
data:([^;]+);base64, and return the captured MIME type, falling back to
image/jpeg when the pattern does not match. -/
def getMimeTypeFromDataUrl (dataUrl : String) : String :=
  let cs := dataUrl.toList
  if charsStartWith "data:".toList cs then
    let rest := cs.drop 5
    let mime := rest.takeWhile (fun c => c ≠ ';')
    let tail := rest.dropWhile (fun c => c ≠ ';')
    if mime ≠ [] ∧ charsStartWith ";base64,".toList tail then
      String.mk mime
    else "image/jpeg"
  else "image/jpeg"

/-- getBase64FromDataUrl: dataUrl.split(",")[1] when a comma is present,
the whole string otherwise. -/
def getBase64FromDataUrl (dataUrl : String) : String :=
  let afterFirst := dataUrl.toList.dropWhile (fun c => c ≠ ',')
  match afterFirst with
  | [] => dataUrl
  | _ :: rest => String.mk (rest.takeWhile (fun c => c ≠ ','))

/-- ProcessedImage record. -/
structure ProcessedImage where
  dataUrl : String
  mimeType : String
  originalSize : Nat
  processedSize : Nat
  width : Nat
  height : Nat
  wasCompressed : Bool
deriving Repr, DecidableEq

/-- Math.round((dataUrl.length * 3) / 4): the approximate byte size of a
base64 data URL; Math.round x = floor (x + 1/2). -/
def approxBase64Bytes (dataUrl : String) : Nat :=
  (dataUrl.length * 3 + 2) / 4

/-- Math.round (num / den) for den > 0: round half up. -/
def jsRoundDiv (num den : Nat) : Nat :=
  (2 * num + den) / (2 * den)

/-- Options bag of compressImage. -/
structure CompressOptions where
  maxDimension : Option Nat
  quality : Option ℚ
  forceCompress : Option Bool
deriving Repr, DecidableEq

/-- compressImage called with no options object. -/
def defaultCompressOptions : CompressOptions := ⟨none, none, none⟩

/-- Failures the processing pipeline can raise: an ImageProcessingError
with its code, or one of the plain Errors thrown by the async
primitives (image decoding, file reading, canvas context creation). -/
inductive PipelineError where
  | processing (code : ImageErrorCode)
  | loadImageFailed
  | readFileFailed
  | canvasContextFailed
deriving Repr, DecidableEq

/-- compressImage from imageValidationService.ts.  The browser
collaborators are explicit parameters: decode models
loadImageFromDataUrl (none = decode failure), canvasEncode models the
canvas draw + toDataURL re-encoding (none = getContext returned null,
which the source turns into a thrown Error). -/
def compressImage (decode : String → Option HtmlImage)
    (canvasEncode : HtmlImage → Nat → Nat → String → ℚ → Option String)
    (dataUrl : String) (options : CompressOptions) :
    Except PipelineError ProcessedImage :=
  let maxDimension := options.maxDimension.getD IMAGE_CONFIG.TARGET_DIMENSION
  let quality := options.quality.getD IMAGE_CONFIG.COMPRESSION_QUALITY
  match decode dataUrl with
  | none => Except.error PipelineError.loadImageFailed
  | some img =>
    let originalSize := approxBase64Bytes dataUrl
    let mimeType := getMimeTypeFromDataUrl dataUrl
    let width := img.naturalWidth
    let height := img.naturalHeight
    let needsResize := width > maxDimension ∨ height > maxDimension
    let needsCompress := options.forceCompress.getD false = true ∨
      originalSize > IMAGE_CONFIG.COMPRESSION_THRESHOLD
    if ¬ needsResize ∧ ¬ needsCompress then
      Except.ok ⟨dataUrl, mimeType, originalSize, originalSize, width, height, false⟩
    else
      let newDims : Nat × Nat :=
        if needsResize then
          if width > height then
            (maxDimension, jsRoundDiv (height * maxDimension) width)
          else
            (jsRoundDiv (width * maxDimension) height, maxDimension)
        else (width, height)
      let outputType := if mimeType = "image/png" then "image/png" else "image/jpeg"
      match canvasEncode img newDims.1 newDims.2 outputType quality with
      | none => Except.error PipelineError.canvasContextFailed
      | some compressedDataUrl =>
        Except.ok ⟨compressedDataUrl, outputType, originalSize,
          approxBase64Bytes compressedDataUrl, newDims.1, newDims.2, true⟩

/-- processImageFile from imageValidationService.ts: validate the file,
read it as a data URL, decode and validate dimensions, then compress.
Invalid validation results always carry a code; the source's non-null
assertion on errorCode is modelled by a PROCESSING_FAILED fallback that
is never reached. -/
def processImageFile (readFileFn : JsFile → Option String)
    (decode : String → Option HtmlImage)
    (canvasEncode : HtmlImage → Nat → Nat → String → ℚ → Option String)
    (file : JsFile) : Except PipelineError ProcessedImage :=
  let fileValidation := validateImageFile file
  if fileValidation.valid = false then
    Except.error (PipelineError.processing
      (fileValidation.errorCode.getD ImageErrorCode.PROCESSING_FAILED))
  else
    match readFileFn file with
    | none => Except.error PipelineError.readFileFailed
    | some dataUrl =>
      match decode dataUrl with
      | none => Except.error PipelineError.loadImageFailed
      | some img =>
        let dimensionValidation := validateImageDimensions img
        if dimensionValidation.valid = false then
          Except.error (PipelineError.processing
            (dimensionValidation.errorCode.getD ImageErrorCode.PROCESSING_FAILED))
        else
          compressImage decode canvasEncode dataUrl defaultCompressOptions

/-- processBase64Image from imageValidationService.ts: wrap camera bytes
into a data URL, validate dimensions, compress. -/
def processBase64Image (decode : String → Option HtmlImage)
    (canvasEncode : HtmlImage → Nat → Nat → String → ℚ → Option String)
    (base64String : String) (format : String) :
    Except PipelineError ProcessedImage :=
  let dataUrl := "data:image/" ++ format ++ ";base64," ++ base64String
  match decode dataUrl with
  | none => Except.error PipelineError.loadImageFailed
  | some img =>
    let dimensionValidation := validateImageDimensions img
    if dimensionValidation.valid = false then
      Except.error (PipelineError.processing
        (dimensionValidation.errorCode.getD ImageErrorCode.PROCESSING_FAILED))
    else
      compressImage decode canvasEncode dataUrl defaultCompressOptions

/-! Styling orchestrator: the App screen controller (startStyling,
clearImage, and the per-outfit generation settlements). -/

/-- getGeminiErrorMessage from geminiService.ts.  A JsError with a
nonempty code models a GeminiAPIError instance and is dispatched on its
code; a plain Error (code "") falls through to the API-key check and the
raw message. -/
def getGeminiErrorMessage (e : JsError) : String :=
  if e.code ≠ "" then
    if e.code = "MAX_RETRIES_EXCEEDED" then
      "Unable to connect to the styling service. Please check your connection and try again."
    else if e.code = "EMPTY_RESPONSE" then
      "The styling service returned an empty response. Please try again."
    else if e.code = "PARSE_ERROR" then
      "Unable to process the styling results. Please try a different photo."
    else if e.code = "NO_IMAGE_DATA" then
      "Failed to generate outfit image. Please try again."
    else if e.code = "EDIT_FAILED" then
      "Failed to edit the outfit image. Please try a different instruction."
    else e.message
  else if charsInclude "API key".toList e.message.toList then
    "Service configuration error. Please contact support."
  else e.message

/-- OutfitSuggestion from types.ts. -/
structure OutfitSuggestion where
  type : StyleType
  description : String
  imageUrl : Option String
  isGenerating : Bool
  error : Option String
  colorsUsed : List String
deriving Repr, DecidableEq

/-- The toast notification state (message and severity). -/
structure ToastState where
  message : String
  kind : String
deriving Repr, DecidableEq

/-- The session state of the App component that is observable to the
caller/presentation layer, plus the abort flag: abortRaised models
whether the AbortController associated with the in-flight styling run
has had its signal raised. -/
structure AppState where
  image : Option String
  isAnalyzing : Bool
  isAnalyzingDNA : Bool
  analysis : Option AnalysisResult
  fashionDNA : Option FashionDNA
  outfits : List OutfitSuggestion
  activeColorFilter : Option String
  activeView : String
  toast : Option ToastState
  abortRaised : Bool
deriving Repr, DecidableEq

/-- clearImage from the App controller: aborts the in-flight run's
controller and resets every piece of session state (the imageUrlsRef
revocation bookkeeping is memory management with no observable state). -/
def clearImageState (s : AppState) : AppState :=
  { s with
    abortRaised := true
    image := none
    analysis := none
    fashionDNA := none
    outfits := []
    activeColorFilter := none
    activeView := "collection" }

/-- The synchronous prologue of startStyling, up to the first await:
abort any previous run, install a fresh AbortController (its signal not
yet raised), and raise both analyzing flags. -/
def startStylingPrologue (s : AppState) : AppState :=
  { s with
    abortRaised := false
    isAnalyzing := true
    isAnalyzingDNA := true }

/-- The OutfitSuggestion array materialized from a fulfilled analysis
result: one suggestion per seed, all isGenerating = true. -/
def initialOutfitsOf (r : AnalysisResult) : List OutfitSuggestion :=
  r.suggestions.map fun s =>
    { type := s.type
      description := s.description
      imageUrl := none
      isGenerating := true
      error := none
      colorsUsed := s.colorsUsed }

/-- The copy-and-replace array update used by the settlement callbacks:
updated = [...prev]; updated[index] = f(updated[index]). -/
def updateSlot : List OutfitSuggestion → Nat →
    (OutfitSuggestion → OutfitSuggestion) → List OutfitSuggestion
  | [], _, _ => []
  | o :: rest, 0, f => f o :: rest
  | o :: rest, Nat.succ i, f => o :: updateSlot rest i f

/-- The setOutfits updater run when the generateOutfitImage call for
slot index settles: success sets imageUrl and clears isGenerating,
failure records the user-facing message and clears isGenerating.  Only
the named slot is touched. -/
def applyGenSettlement (index : Nat) (outcome : Except JsError String)
    (prev : List OutfitSuggestion) : List OutfitSuggestion :=
  match outcome with
  | Except.ok imageUrl =>
    updateSlot prev index fun o =>
      { o with imageUrl := some imageUrl, isGenerating := false }
  | Except.error err =>
    updateSlot prev index fun o =>
      { o with isGenerating := false, error := some (getGeminiErrorMessage err) }

/-- The fan-out settlements applied in the order the image-generation
calls happen to settle; outcome i is the settlement of the call for
slot i. -/
def applyGenSettlements (outcome : Nat → Except JsError String)
    (order : List Nat) (init : List OutfitSuggestion) : List OutfitSuggestion :=
  order.foldl (fun outs i => applyGenSettlement i (outcome i) outs) init

/-- The continuation of startStyling after
await Promise.allSettled([analyzeItem, analyzeFashionDNA]): handle the
item-analysis settlement (materialize the suggestions and run the
image fan-out to completion, or toast the session error), then handle
the fashion-DNA settlement (record it, or only console.warn).  The
source never consults the abort signal here, so this continuation is
applied to whatever state is current when the promises settle. -/
def handleAnalysesSettled (itemRes : Except JsError AnalysisResult)
    (dnaRes : Except JsError FashionDNA)
    (genOutcome : Nat → Except JsError String) (genOrder : List Nat)
    (s : AppState) : AppState :=
  let s2 :=
    match itemRes with
    | Except.ok result =>
      { s with
        analysis := some result
        outfits := applyGenSettlements genOutcome genOrder (initialOutfitsOf result) }
    | Except.error e =>
      { s with toast := some ⟨getGeminiErrorMessage e, "error"⟩ }
  match dnaRes with
  | Except.ok dna => { s2 with fashionDNA := some dna }
  | Except.error _ => s2

/-- The finally block of startStyling. -/
def stylingFinally (s : AppState) : AppState :=
  { s with isAnalyzing := false, isAnalyzingDNA := false }

/-- One full startStyling run with no interleaved user action: guard on
a selected image, prologue, both analyses settle, the continuation runs,
finally clears the analyzing flags.  genOrder is the order in which the
per-outfit image-generation calls settle. -/
def startStylingRun (s0 : AppState) (itemRes : Except JsError AnalysisResult)
    (dnaRes : Except JsError FashionDNA)
    (genOutcome : Nat → Except JsError String) (genOrder : List Nat) : AppState :=
  if s0.image = none then s0
  else
    stylingFinally
      (handleAnalysesSettled itemRes dnaRes genOutcome genOrder
        (startStylingPrologue s0))

/-! Timed view of the startStyling concurrency shape, for the ordering
properties: a promise is modelled by the instant it settles and its
outcome. -/

/-- A settled promise: when it settled, and with what outcome. -/
structure Settled (α : Type) where
  time : Nat
  result : Except JsError α

/-- Promise.allSettled on two promises: its continuation runs when the
later of the two settles and receives both outcomes. -/
def allSettled2Time {α β : Type} (a : Settled α) (b : Settled β) : Nat :=
  max a.time b.time

/-- The instant at which startStyling runs setOutfits(initialOutfits):
it lies in the continuation of
await Promise.allSettled([analyzeItem(image), analyzeFashionDNA(image)])
and only happens when the item analysis was fulfilled. -/
def outfitsMaterializedAt (itemCall : Settled AnalysisResult)
    (dnaCall : Settled FashionDNA) : Option Nat :=
  match itemCall.result with
  | Except.ok _ => some (allSettled2Time itemCall dnaCall)
  | Except.error _ => none

/-- The dispatch instants of the generateOutfitImage fan-out: one call
per materialized suggestion, all issued synchronously in the same
continuation (via initialOutfits.map immediately after setOutfits). -/
def genDispatchTimes (itemCall : Settled AnalysisResult)
    (dnaCall : Settled FashionDNA) : List Nat :=
  match itemCall.result with
  | Except.ok r =>
    r.suggestions.map (fun _ => allSettled2Time itemCall dnaCall)
  | Except.error _ => []

/-- The seed fields of a suggestion slot (the fields the settlement
merges preserve). -/
def slotSeedView (o : OutfitSuggestion) : SuggestionSeed :=
  ⟨o.type, o.description, o.colorsUsed⟩

/-- Sample session state for concrete scenarios: an image is selected,
nothing analyzed yet. -/
def sampleIdleState : AppState :=
  ⟨some "data:image/jpeg;base64,AA", false, false, none, none, [], none,
    "collection", none, false⟩

/-- Sample fulfilled analysis for the cancellation scenario. -/
def sampleAnalysisAbort : AnalysisResult :=
  ⟨"Shirt", ["#fff"], ["#000"], "a shirt",
    [⟨StyleType.Casual, "look", ["#fff"]⟩]⟩

/-- Sample fulfilled fashion DNA for the cancellation scenario. -/
def sampleDnaAbort : FashionDNA :=
  ⟨"Mid-Century", "1955-1965", [], [], "s", "f", "c", "m", "Heritage Piece",
    "The Minimalist", "notes"⟩

/-- Sample analysis result with three suggestions for the fan-out timing
scenario. -/
def sampleAnalysisTiming : AnalysisResult :=
  ⟨"Shirt", ["#fff"], ["#000"], "a shirt",
    [⟨StyleType.Casual, "c", []⟩, ⟨StyleType.Business, "b", []⟩,
     ⟨StyleType.NightOut, "n", []⟩]⟩

/-- Sample fashion DNA for the fan-out timing scenario. -/
def sampleDnaTiming : FashionDNA :=
  ⟨"Mid-Century", "1955-1965", [], [], "s", "f", "c", "m", "Heritage Piece",
    "The Minimalist", "notes"⟩

/-! Helper lemmas about the retry loop and the fan-out settlements. -/

/-- If the first n invocations fail with retryable errors, n attempts
remain, and invocation n succeeds, the loop returns the success value
after exactly n + 1 invocations. -/
theorem withRetryAux_ok_after_failures {α : Type} (op : Nat → Except JsError α)
    (n : Nat) (v : α) :
    ∀ (a fuel : Nat), n ≤ fuel →
    (∀ k, k < n → ∃ e, op (a + k) = Except.error e ∧ isRetryableError e = true) →
    op (a + n) = Except.ok v →
    withRetryAux op a fuel = (n + 1, Except.ok v) := by
  induction n with
  | zero =>
    intro a fuel _ _ hok
    rw [Nat.add_zero] at hok
    unfold withRetryAux
    rw [hok]
  | succ n ih =>
    intro a fuel hn hfail hok
    obtain ⟨e, he, hr⟩ := hfail 0 (Nat.succ_pos n)
    rw [Nat.add_zero] at he
    obtain ⟨f, rfl⟩ : ∃ f, fuel = f + 1 := ⟨fuel - 1, by omega⟩
    have h2 := ih (a + 1) f (by omega)
      (fun k hk => by
        obtain ⟨e', he', hr'⟩ := hfail (k + 1) (by omega)
        exact ⟨e', by rw [show a + 1 + k = a + (k + 1) by omega]; exact he', hr'⟩)
      (by rw [show a + 1 + n = a + (n + 1) by omega]; exact hok)
    unfold withRetryAux
    rw [he]
    simp [hr, h2]

/-- If every invocation up to the fuel bound fails with a retryable
error and the last permitted invocation also fails, the loop stops with
that last error after fuel + 1 invocations. -/
theorem withRetryAux_exhausted {α : Type} (op : Nat → Except JsError α)
    (e : JsError) :
    ∀ (fuel a : Nat),
    (∀ k, k < fuel → ∃ e', op (a + k) = Except.error e' ∧ isRetryableError e' = true) →
    op (a + fuel) = Except.error e →
    withRetryAux op a fuel = (fuel + 1, Except.error e) := by
  intro fuel
  induction fuel with
  | zero =>
    intro a _ hlast
    rw [Nat.add_zero] at hlast
    unfold withRetryAux
    rw [hlast]
  | succ f ih =>
    intro a hfail hlast
    obtain ⟨e0, he0, hr0⟩ := hfail 0 (Nat.succ_pos f)
    rw [Nat.add_zero] at he0
    have h2 := ih (a + 1)
      (fun k hk => by
        obtain ⟨e', he', hr'⟩ := hfail (k + 1) (by omega)
        exact ⟨e', by rw [show a + 1 + k = a + (k + 1) by omega]; exact he', hr'⟩)
      (by rw [show a + 1 + f = a + (f + 1) by omega]; exact hlast)
    unfold withRetryAux
    rw [he0]
    simp [hr0, h2]

/-- A slot update whose merge preserves the seed fields leaves the
seed-field view of the whole array unchanged. -/
theorem updateSlot_map_seedView (f : OutfitSuggestion → OutfitSuggestion)
    (hf : ∀ o, slotSeedView (f o) = slotSeedView o) :
    ∀ (l : List OutfitSuggestion) (i : Nat),
    (updateSlot l i f).map slotSeedView = l.map slotSeedView := by
  intro l
  induction l with
  | nil => intro i; rfl
  | cons o rest ih =>
    intro i
    cases i with
    | zero => simp [updateSlot, hf]
    | succ i => simp [updateSlot, ih]

/-- A generation settlement never changes the type, description or
colorsUsed of any slot. -/
theorem applyGenSettlement_seedView (i : Nat) (outcome : Except JsError String)
    (prev : List OutfitSuggestion) :
    (applyGenSettlement i outcome prev).map slotSeedView =
      prev.map slotSeedView := by
  cases outcome <;> simp only [applyGenSettlement] <;>
    refine updateSlot_map_seedView _ ?_ prev i <;> intro o <;> rfl

/-- No sequence of generation settlements changes the seed fields of the
suggestion array. -/
theorem applyGenSettlements_seedView (outcome : Nat → Except JsError String) :
    ∀ (order : List Nat) (init : List OutfitSuggestion),
    (applyGenSettlements outcome order init).map slotSeedView =
      init.map slotSeedView := by
  intro order
  induction order with
  | nil => intro init; rfl
  | cons i rest ih =>
    intro init
    have : applyGenSettlements outcome (i :: rest) init =
        applyGenSettlements outcome rest
          (applyGenSettlement i (outcome i) init) := rfl
    rw [this, ih, applyGenSettlement_seedView]

/-- The materialized suggestion array projects back onto the analysis
result's suggestion seeds. -/
theorem initialOutfitsOf_seedView (r : AnalysisResult) :
    (initialOutfitsOf r).map slotSeedView = r.suggestions := by
  unfold initialOutfitsOf
  rw [List.map_map]
  have : ∀ l : List SuggestionSeed, l.map (slotSeedView ∘ fun s =>
      ({ type := s.type, description := s.description, imageUrl := none,
         isGenerating := true, error := none, colorsUsed := s.colorsUsed } :
        OutfitSuggestion)) = l := by
    intro l
    induction l with
    | nil => rfl
    | cons s rest ih => simp [slotSeedView] at *; exact ih
  exact this r.suggestions

/-- Every permutation of the three slot indices is one of the six
concrete orders. -/
theorem perm_of_012 (l : List Nat) (h : l.Perm [0, 1, 2]) :
    l = [0,1,2] ∨ l = [1,0,2] ∨ l = [2,1,0] ∨ l = [1,2,0] ∨
      l = [2,0,1] ∨ l = [0,2,1] := by
  have hlen : l.length = 3 := h.length_eq
  obtain ⟨a, b, c, rfl⟩ : ∃ a b c, l = [a, b, c] := by
    match l, hlen with
    | [a, b, c], _ => exact ⟨a, b, c, rfl⟩
  have hnd : ([a, b, c] : List Nat).Nodup := h.nodup_iff.2 (by decide)
  have ha : a ∈ ([0, 1, 2] : List Nat) := h.mem_iff.1 (by simp)
  have hb : b ∈ ([0, 1, 2] : List Nat) := h.mem_iff.1 (by simp)
  have hc : c ∈ ([0, 1, 2] : List Nat) := h.mem_iff.1 (by simp)
  simp only [List.mem_cons, List.not_mem_nil, or_false] at ha hb hc
  rcases ha with rfl | rfl | rfl <;> rcases hb with rfl | rfl | rfl <;>
    rcases hc with rfl | rfl | rfl <;> simp_all

/-! The claims. -/

/-- Claim C1 (code bug exhibited).  The claim says an EMPTY_RESPONSE
failure of analyzeItem is classified retryable and is retried by the
wrapper while attempts remain.  In the code the thrown GeminiAPIError
does carry retryable = true, but isRetryableError never reads that flag
and its message contains none of the matched substrings, so withRetry
makes exactly one invocation and immediately wraps the failure as
MAX_RETRIES_EXCEEDED; a PARSE_ERROR failure is likewise not retried
(that half of the claim matches the code). -/
theorem analyzeItem_empty_response_not_retried :
    emptyResponseItemError.retryable = true ∧
    isRetryableError emptyResponseItemError = false ∧
    (analyzeItem (fun _ => none) (fun _ => none)).1 = 1 ∧
    (analyzeItem (fun _ => none) (fun _ => none)).2 =
      Except.error (maxRetriesExceededError "Clothing analysis"
        RETRY_CONFIG.maxRetries emptyResponseItemError) ∧
    (maxRetriesExceededError "Clothing analysis" RETRY_CONFIG.maxRetries
        emptyResponseItemError).code = "MAX_RETRIES_EXCEEDED" ∧
    parseItemError.retryable = false ∧
    isRetryableError parseItemError = false ∧
    (analyzeItem (fun _ => some "not json") (fun _ => none)).1 = 1 ∧
    (analyzeItem (fun _ => some "not json") (fun _ => none)).2 =
      Except.error (maxRetriesExceededError "Clothing analysis"
        RETRY_CONFIG.maxRetries parseItemError) := by
  refine ⟨rfl, by decide, rfl, rfl, rfl, rfl, by decide, rfl, rfl⟩

/-- Claim C2 (code bug exhibited).  The claim says that once the abort
signal is raised, no settlement of a call dispatched before the abort
mutates observable session state.  In the code the settlement
continuation never consults the abort signal: after clearImage aborts
and resets the session, the stale analyzeItem, analyzeFashionDNA and
generateOutfitImage settlements still repopulate analysis, fashionDNA
and outfits on the cleared, image-less session. -/
theorem stale_settlements_mutate_after_abort :
    (clearImageState (startStylingPrologue sampleIdleState)).abortRaised = true ∧
    (clearImageState (startStylingPrologue sampleIdleState)).image = none ∧
    (clearImageState (startStylingPrologue sampleIdleState)).analysis = none ∧
    (clearImageState (startStylingPrologue sampleIdleState)).outfits = [] ∧
    (stylingFinally (handleAnalysesSettled
        (Except.ok sampleAnalysisAbort) (Except.ok sampleDnaAbort)
        (fun _ => Except.ok "data:image/png;base64,BB") [0]
        (clearImageState (startStylingPrologue sampleIdleState)))).abortRaised
      = true ∧
    (stylingFinally (handleAnalysesSettled
        (Except.ok sampleAnalysisAbort) (Except.ok sampleDnaAbort)
        (fun _ => Except.ok "data:image/png;base64,BB") [0]
        (clearImageState (startStylingPrologue sampleIdleState)))).analysis
      = some sampleAnalysisAbort ∧
    (stylingFinally (handleAnalysesSettled
        (Except.ok sampleAnalysisAbort) (Except.ok sampleDnaAbort)
        (fun _ => Except.ok "data:image/png;base64,BB") [0]
        (clearImageState (startStylingPrologue sampleIdleState)))).fashionDNA
      = some sampleDnaAbort ∧
    ¬ (stylingFinally (handleAnalysesSettled
        (Except.ok sampleAnalysisAbort) (Except.ok sampleDnaAbort)
        (fun _ => Except.ok "data:image/png;base64,BB") [0]
        (clearImageState (startStylingPrologue sampleIdleState)))).outfits = [] ∧
    (stylingFinally (handleAnalysesSettled
        (Except.ok sampleAnalysisAbort) (Except.ok sampleDnaAbort)
        (fun _ => Except.ok "data:image/png;base64,BB") [0]
        (clearImageState (startStylingPrologue sampleIdleState)))).image
      = none := by
  decide

/-- Claim C3.  Retry determinism: when an operation fails N consecutive
times with retryable errors and then succeeds, withRetry returns the
success value after exactly N + 1 invocations whenever N is at most
maxRetries, and when N exceeds maxRetries it stops after exactly
maxRetries + 1 = 4 invocations with a MAX_RETRIES_EXCEEDED error. -/
theorem withRetry_retry_determinism {α : Type} (op : Nat → Except JsError α)
    (context : String) (N : Nat) (v : α)
    (hfail : ∀ k, k < N → ∃ e, op k = Except.error e ∧ isRetryableError e = true)
    (hok : op N = Except.ok v) :
    (N ≤ RETRY_CONFIG.maxRetries → withRetry op context = (N + 1, Except.ok v)) ∧
    (RETRY_CONFIG.maxRetries < N →
      (withRetry op context).1 = RETRY_CONFIG.maxRetries + 1 ∧
      (withRetry op context).1 = 4 ∧
      ∃ e, (withRetry op context).2 = Except.error e ∧
        e.code = "MAX_RETRIES_EXCEEDED") := by
  constructor
  · intro hN
    have h := withRetryAux_ok_after_failures op N v 0 RETRY_CONFIG.maxRetries hN
      (fun k hk => by simpa using hfail k hk)
      (by simpa using hok)
    simp only [withRetry, h]
  · intro hN
    obtain ⟨e3, he3, -⟩ := hfail RETRY_CONFIG.maxRetries hN
    have h := withRetryAux_exhausted op e3 RETRY_CONFIG.maxRetries 0
      (fun k hk => by
        obtain ⟨e', he', hr'⟩ := hfail k (lt_trans hk hN)
        exact ⟨e', by simpa using he', hr'⟩)
      (by simpa using he3)
    have h1 : withRetry op context =
        (RETRY_CONFIG.maxRetries + 1,
          Except.error (maxRetriesExceededError context
            RETRY_CONFIG.maxRetries e3)) := by
      simp only [withRetry, h]
    rw [h1]
    exact ⟨rfl, rfl, _, rfl, rfl⟩

/-- Witness for C3: an operation failing twice with a network error and
then succeeding is invoked 3 times and its value returned. -/
theorem withRetry_retry_determinism_witness :
    withRetry
        (fun k => if k < 2 then Except.error ⟨"network error", "", false⟩
          else Except.ok (42 : Nat))
        "Clothing analysis" = (3, Except.ok 42) := by
  have h := withRetry_retry_determinism
    (fun k => if k < 2 then Except.error ⟨"network error", "", false⟩
      else Except.ok (42 : Nat))
    "Clothing analysis" 2 42
    (fun k hk => ⟨⟨"network error", "", false⟩, by simp [hk], by decide⟩)
    (by rfl)
  exact h.1 (by decide)

/-- Claim C4 counterexample.  The claim says the suggestion array is
materialized and the image fan-out dispatched as soon as analyzeItem
settles successfully, not delayed until analyzeFashionDNA settles; but
the source awaits Promise.allSettled of both analyses, so with the item
analysis settling at time 1 and the DNA analysis at time 5, the
materialization happens at time 5, not time 1. -/
theorem outfits_materialization_delayed_by_dna :
    outfitsMaterializedAt ⟨1, Except.ok sampleAnalysisTiming⟩
      ⟨5, Except.ok sampleDnaTiming⟩ = some 5 ∧
    ¬ outfitsMaterializedAt ⟨1, Except.ok sampleAnalysisTiming⟩
      ⟨5, Except.ok sampleDnaTiming⟩ = some 1 := by
  decide

/-- Claim C4 as amended.  When analyzeItem settles successfully, the
orchestrator materializes one suggestion per seed (all isGenerating)
and fans out one generateOutfitImage call per suggestion, all dispatched
fully concurrently at a single instant - but that instant is when BOTH
top-level analyses have settled (the later of the two settlement
times), not the item-analysis settlement time alone. -/
theorem outfits_materialization_after_both (itemCall : Settled AnalysisResult)
    (dnaCall : Settled FashionDNA) (r : AnalysisResult)
    (hok : itemCall.result = Except.ok r) :
    outfitsMaterializedAt itemCall dnaCall =
      some (max itemCall.time dnaCall.time) ∧
    genDispatchTimes itemCall dnaCall =
      r.suggestions.map (fun _ => max itemCall.time dnaCall.time) ∧
    (∀ o, o ∈ initialOutfitsOf r → o.isGenerating = true) := by
  refine ⟨?_, ?_, ?_⟩
  · simp [outfitsMaterializedAt, hok, allSettled2Time]
  · simp [genDispatchTimes, hok, allSettled2Time]
  · intro o ho
    simp only [initialOutfitsOf, List.mem_map] at ho
    obtain ⟨s, -, rfl⟩ := ho
    rfl

/-- Witness for the amended C4 at the counterexample's timing. -/
theorem outfits_materialization_after_both_witness :
    outfitsMaterializedAt ⟨1, Except.ok sampleAnalysisTiming⟩
      ⟨5, Except.ok sampleDnaTiming⟩ = some (max 1 5) ∧
    genDispatchTimes ⟨1, Except.ok sampleAnalysisTiming⟩
      ⟨5, Except.ok sampleDnaTiming⟩ =
      sampleAnalysisTiming.suggestions.map (fun _ => max 1 5) ∧
    (∀ o, o ∈ initialOutfitsOf sampleAnalysisTiming → o.isGenerating = true) :=
  outfits_materialization_after_both ⟨1, Except.ok sampleAnalysisTiming⟩
    ⟨5, Except.ok sampleDnaTiming⟩ sampleAnalysisTiming rfl

/-- Claim C5.  Fan-out isolation: with three suggestions where the image
generation for slot 1 (the second suggestion) fails and slots 0 and 2
succeed, the final array has slots 0 and 2 with imageUrl set and
isGenerating false, slot 1 with the user-facing error set and
isGenerating false - identically for every one of the six settlement
orders, each settlement touching only its own slot. -/
theorem fanout_isolation_three
    (nm d : String) (op cp : List String) (s1 s2 s3 : SuggestionSeed)
    (u1 u3 : String) (e : JsError) (order : List Nat)
    (hperm : order.Perm [0, 1, 2]) :
    applyGenSettlements
      (fun i => if i = 0 then Except.ok u1
        else if i = 1 then Except.error e else Except.ok u3)
      order
      (initialOutfitsOf ⟨nm, op, cp, d, [s1, s2, s3]⟩) =
    [{ type := s1.type, description := s1.description, imageUrl := some u1,
       isGenerating := false, error := none, colorsUsed := s1.colorsUsed },
     { type := s2.type, description := s2.description, imageUrl := none,
       isGenerating := false, error := some (getGeminiErrorMessage e),
       colorsUsed := s2.colorsUsed },
     { type := s3.type, description := s3.description, imageUrl := some u3,
       isGenerating := false, error := none, colorsUsed := s3.colorsUsed }] := by
  rcases perm_of_012 order hperm with rfl | rfl | rfl | rfl | rfl | rfl <;> rfl

/-- Witness for C5 at a concrete session and the settlement order
2, 0, 1. -/
theorem fanout_isolation_three_witness :
    applyGenSettlements
      (fun i => if i = 0 then Except.ok "url1"
        else if i = 1 then Except.error noImageDataError else Except.ok "url3")
      [2, 0, 1]
      (initialOutfitsOf ⟨"Shirt", ["#fff"], ["#000"], "a shirt",
        [⟨StyleType.Casual, "look one", ["#fff"]⟩,
         ⟨StyleType.Business, "look two", ["#000"]⟩,
         ⟨StyleType.NightOut, "look three", ["#111"]⟩]⟩) =
    [{ type := StyleType.Casual, description := "look one",
       imageUrl := some "url1", isGenerating := false, error := none,
       colorsUsed := ["#fff"] },
     { type := StyleType.Business, description := "look two", imageUrl := none,
       isGenerating := false,
       error := some (getGeminiErrorMessage noImageDataError),
       colorsUsed := ["#000"] },
     { type := StyleType.NightOut, description := "look three",
       imageUrl := some "url3", isGenerating := false, error := none,
       colorsUsed := ["#111"] }] :=
  fanout_isolation_three "Shirt" "a shirt" ["#fff"] ["#000"]
    ⟨StyleType.Casual, "look one", ["#fff"]⟩
    ⟨StyleType.Business, "look two", ["#000"]⟩
    ⟨StyleType.NightOut, "look three", ["#111"]⟩
    "url1" "url3" noImageDataError [2, 0, 1] (by decide)

/-- Claim C6.  Non-blocking DNA: when analyzeFashionDNA fails and
analyzeItem succeeds, the run still completes (both analyzing flags
cleared) with the suggestion array populated from the analysis result,
fashionDNA left unset, and no toast raised for the DNA failure (it is
only logged). -/
theorem dna_failure_nonblocking (s0 : AppState) (r : AnalysisResult) (e : JsError)
    (genOutcome : Nat → Except JsError String) (genOrder : List Nat)
    (himg : ¬ s0.image = none) (hdna : s0.fashionDNA = none) :
    (startStylingRun s0 (Except.ok r) (Except.error e) genOutcome genOrder).fashionDNA
      = none ∧
    (startStylingRun s0 (Except.ok r) (Except.error e) genOutcome genOrder).analysis
      = some r ∧
    (startStylingRun s0 (Except.ok r) (Except.error e) genOutcome
        genOrder).outfits.map slotSeedView = r.suggestions ∧
    (startStylingRun s0 (Except.ok r) (Except.error e) genOutcome genOrder).toast
      = s0.toast ∧
    (startStylingRun s0 (Except.ok r) (Except.error e) genOutcome
        genOrder).isAnalyzing = false ∧
    (startStylingRun s0 (Except.ok r) (Except.error e) genOutcome
        genOrder).isAnalyzingDNA = false := by
  refine ⟨?_, ?_, ?_, ?_, ?_, ?_⟩
  all_goals simp only [startStylingRun, if_neg himg, stylingFinally,
    handleAnalysesSettled, startStylingPrologue]
  · exact hdna
  · rw [applyGenSettlements_seedView, initialOutfitsOf_seedView]

/-- Witness for C6 at a concrete session with one suggestion whose DNA
call fails with a parse error. -/
theorem dna_failure_nonblocking_witness :
    (startStylingRun
        ⟨some "data:image/jpeg;base64,AA", false, false, none, none, [], none,
          "collection", none, false⟩
        (Except.ok ⟨"Shirt", ["#fff"], ["#000"], "a shirt",
          [⟨StyleType.Casual, "look", ["#fff"]⟩]⟩)
        (Except.error parseDnaError)
        (fun _ => Except.ok "data:image/png;base64,BB") [0]).fashionDNA = none ∧
    (startStylingRun
        ⟨some "data:image/jpeg;base64,AA", false, false, none, none, [], none,
          "collection", none, false⟩
        (Except.ok ⟨"Shirt", ["#fff"], ["#000"], "a shirt",
          [⟨StyleType.Casual, "look", ["#fff"]⟩]⟩)
        (Except.error parseDnaError)
        (fun _ => Except.ok "data:image/png;base64,BB") [0]).analysis =
      some ⟨"Shirt", ["#fff"], ["#000"], "a shirt",
        [⟨StyleType.Casual, "look", ["#fff"]⟩]⟩ ∧
    (startStylingRun
        ⟨some "data:image/jpeg;base64,AA", false, false, none, none, [], none,
          "collection", none, false⟩
        (Except.ok ⟨"Shirt", ["#fff"], ["#000"], "a shirt",
          [⟨StyleType.Casual, "look", ["#fff"]⟩]⟩)
        (Except.error parseDnaError)
        (fun _ => Except.ok "data:image/png;base64,BB") [0]).outfits.map
      slotSeedView = [⟨StyleType.Casual, "look", ["#fff"]⟩] ∧
    (startStylingRun
        ⟨some "data:image/jpeg;base64,AA", false, false, none, none, [], none,
          "collection", none, false⟩
        (Except.ok ⟨"Shirt", ["#fff"], ["#000"], "a shirt",
          [⟨StyleType.Casual, "look", ["#fff"]⟩]⟩)
        (Except.error parseDnaError)
        (fun _ => Except.ok "data:image/png;base64,BB") [0]).toast = none ∧
    (startStylingRun
        ⟨some "data:image/jpeg;base64,AA", false, false, none, none, [], none,
          "collection", none, false⟩
        (Except.ok ⟨"Shirt", ["#fff"], ["#000"], "a shirt",
          [⟨StyleType.Casual, "look", ["#fff"]⟩]⟩)
        (Except.error parseDnaError)
        (fun _ => Except.ok "data:image/png;base64,BB") [0]).isAnalyzing = false ∧
    (startStylingRun
        ⟨some "data:image/jpeg;base64,AA", false, false, none, none, [], none,
          "collection", none, false⟩
        (Except.ok ⟨"Shirt", ["#fff"], ["#000"], "a shirt",
          [⟨StyleType.Casual, "look", ["#fff"]⟩]⟩)
        (Except.error parseDnaError)
        (fun _ => Except.ok "data:image/png;base64,BB") [0]).isAnalyzingDNA =
      false :=
  dna_failure_nonblocking
    ⟨some "data:image/jpeg;base64,AA", false, false, none, none, [], none,
      "collection", none, false⟩
    ⟨"Shirt", ["#fff"], ["#000"], "a shirt",
      [⟨StyleType.Casual, "look", ["#fff"]⟩]⟩
    parseDnaError (fun _ => Except.ok "data:image/png;base64,BB") [0]
    (by decide) rfl

/-- Claim C7.  Backoff bound: for every attempt k and every jitter draw
in [0, 1], the delay returned by getRetryDelay is the uncapped
delay-plus-jitter clipped at maxDelayMs, never exceeds maxDelayMs, and
the pre-jitter delay equals baseDelayMs * 2 ^ k and is never decreased
by jitter (jitter only adds). -/
theorem getRetryDelay_bounded (k : Nat) (r : ℚ) (h0 : 0 ≤ r) (h1 : r ≤ 1) :
    getRetryDelay r k = min (getRetryDelayUncapped r k) RETRY_CONFIG.maxDelayMs ∧
    getRetryDelay r k ≤ RETRY_CONFIG.maxDelayMs ∧
    getRetryDelayPreJitter k = RETRY_CONFIG.baseDelayMs * 2 ^ k ∧
    getRetryDelayPreJitter k ≤ getRetryDelayUncapped r k := by
  refine ⟨rfl, min_le_right _ _, rfl, ?_⟩
  unfold getRetryDelayPreJitter getRetryDelayUncapped
  have hd : (0 : ℚ) ≤ RETRY_CONFIG.baseDelayMs * 2 ^ k := by
    have : (0 : ℚ) ≤ RETRY_CONFIG.baseDelayMs := by norm_num [RETRY_CONFIG]
    positivity
  have hj : (0 : ℚ) ≤ r * (3 / 10) * (RETRY_CONFIG.baseDelayMs * 2 ^ k) := by
    have h310 : (0 : ℚ) ≤ 3 / 10 := by norm_num
    exact mul_nonneg (mul_nonneg h0 h310) hd
  linarith

/-- Witness for C7 at attempt 2 with a zero jitter draw. -/
theorem getRetryDelay_bounded_witness :
    getRetryDelay 0 2 = min (getRetryDelayUncapped 0 2) RETRY_CONFIG.maxDelayMs ∧
    getRetryDelay 0 2 ≤ RETRY_CONFIG.maxDelayMs ∧
    getRetryDelayPreJitter 2 = RETRY_CONFIG.baseDelayMs * 2 ^ 2 ∧
    getRetryDelayPreJitter 2 ≤ getRetryDelayUncapped 0 2 :=
  getRetryDelay_bounded 2 0 (le_refl 0) zero_le_one

/-- Claim C8.  Dimension validation failure stops the pipeline: for a
file that passes the byte-size and MIME checks but whose decoded image
has a side below 200, processImageFile fails with DIMENSIONS_TOO_SMALL;
with both sides at least 200 and a side above 4096 it fails with
DIMENSIONS_TOO_LARGE - in both cases for every canvas encoder, since
compression is never invoked. -/
theorem dimension_bounds_stop_pipeline
    (readFileFn : JsFile → Option String) (decode : String → Option HtmlImage)
    (canvasEncode : HtmlImage → Nat → Nat → String → ℚ → Option String)
    (file : JsFile) (dataUrl : String) (img : HtmlImage)
    (hfile : (validateImageFile file).valid = true)
    (hread : readFileFn file = some dataUrl)
    (hdecode : decode dataUrl = some img) :
    ((img.naturalWidth < IMAGE_CONFIG.MIN_DIMENSION ∨
        img.naturalHeight < IMAGE_CONFIG.MIN_DIMENSION) →
      processImageFile readFileFn decode canvasEncode file =
        Except.error (PipelineError.processing
          ImageErrorCode.DIMENSIONS_TOO_SMALL)) ∧
    (IMAGE_CONFIG.MIN_DIMENSION ≤ img.naturalWidth →
      IMAGE_CONFIG.MIN_DIMENSION ≤ img.naturalHeight →
      (IMAGE_CONFIG.MAX_DIMENSION < img.naturalWidth ∨
        IMAGE_CONFIG.MAX_DIMENSION < img.naturalHeight) →
      processImageFile readFileFn decode canvasEncode file =
        Except.error (PipelineError.processing
          ImageErrorCode.DIMENSIONS_TOO_LARGE)) := by
  constructor
  · intro hsmall
    have hv : validateImageDimensions img =
        ⟨false, some ImageErrorCode.DIMENSIONS_TOO_SMALL, []⟩ := by
      unfold validateImageDimensions
      rw [if_pos hsmall]
    simp [processImageFile, hfile, hread, hdecode, hv]
  · intro hw hh hlarge
    have hv : validateImageDimensions img =
        ⟨false, some ImageErrorCode.DIMENSIONS_TOO_LARGE, []⟩ := by
      unfold validateImageDimensions
      rw [if_neg (by omega), if_pos (by omega)]
    simp [processImageFile, hfile, hread, hdecode, hv]

/-- Witness for C8: the spec scenario of a 6000 by 6000 pixel JPEG of
3MB - under the byte-size limit yet rejected as DIMENSIONS_TOO_LARGE. -/
theorem dimension_bounds_stop_pipeline_witness :
    (validateImageFile ⟨3 * 1024 * 1024, "image/jpeg"⟩).valid = true ∧
    processImageFile (fun _ => some "u") (fun _ => some ⟨6000, 6000⟩)
        (fun _ _ _ _ _ => none) ⟨3 * 1024 * 1024, "image/jpeg"⟩ =
      Except.error (PipelineError.processing
        ImageErrorCode.DIMENSIONS_TOO_LARGE) :=
  ⟨by decide,
    (dimension_bounds_stop_pipeline (fun _ => some "u")
      (fun _ => some ⟨6000, 6000⟩) (fun _ _ _ _ _ => none)
      ⟨3 * 1024 * 1024, "image/jpeg"⟩ "u" ⟨6000, 6000⟩
      (by decide) rfl rfl).2 (by decide) (by decide) (by decide)⟩

/-- Claim C9.  Compression idempotence: on an image within the default
dimension bound whose approximate byte size is at or below the 2MB
compression threshold, compressImage without forceCompress is a no-op
(wasCompressed false, output identical to the input), and applying
compressImage again to the output returns the very same value. -/
theorem compress_within_bounds_noop (decode : String → Option HtmlImage)
    (canvasEncode : HtmlImage → Nat → Nat → String → ℚ → Option String)
    (dataUrl : String) (img : HtmlImage)
    (hdecode : decode dataUrl = some img)
    (hw : img.naturalWidth ≤ IMAGE_CONFIG.TARGET_DIMENSION)
    (hh : img.naturalHeight ≤ IMAGE_CONFIG.TARGET_DIMENSION)
    (hsize : approxBase64Bytes dataUrl ≤ IMAGE_CONFIG.COMPRESSION_THRESHOLD) :
    compressImage decode canvasEncode dataUrl defaultCompressOptions =
      Except.ok ⟨dataUrl, getMimeTypeFromDataUrl dataUrl,
        approxBase64Bytes dataUrl, approxBase64Bytes dataUrl,
        img.naturalWidth, img.naturalHeight, false⟩ ∧
    (∀ out, compressImage decode canvasEncode dataUrl defaultCompressOptions =
        Except.ok out →
      out.wasCompressed = false ∧ out.dataUrl = dataUrl ∧
      out.mimeType = getMimeTypeFromDataUrl dataUrl ∧
      out.width = img.naturalWidth ∧ out.height = img.naturalHeight ∧
      compressImage decode canvasEncode out.dataUrl defaultCompressOptions =
        Except.ok out) := by
  have hw' : ¬ img.naturalWidth > IMAGE_CONFIG.TARGET_DIMENSION := by omega
  have hh' : ¬ img.naturalHeight > IMAGE_CONFIG.TARGET_DIMENSION := by omega
  have hs' : ¬ approxBase64Bytes dataUrl > IMAGE_CONFIG.COMPRESSION_THRESHOLD := by
    omega
  have hmain : compressImage decode canvasEncode dataUrl defaultCompressOptions =
      Except.ok ⟨dataUrl, getMimeTypeFromDataUrl dataUrl,
        approxBase64Bytes dataUrl, approxBase64Bytes dataUrl,
        img.naturalWidth, img.naturalHeight, false⟩ := by
    simp [compressImage, hdecode, defaultCompressOptions, hw', hh', hs']
  refine ⟨hmain, ?_⟩
  intro out hout
  rw [hmain] at hout
  obtain rfl : (⟨dataUrl, getMimeTypeFromDataUrl dataUrl,
      approxBase64Bytes dataUrl, approxBase64Bytes dataUrl,
      img.naturalWidth, img.naturalHeight, false⟩ : ProcessedImage) = out :=
    Except.ok.inj hout
  exact ⟨rfl, rfl, rfl, rfl, rfl, hmain⟩

/-- Witness for C9 on a small 300 by 300 PNG data URL. -/
theorem compress_within_bounds_noop_witness :
    compressImage (fun _ => some ⟨300, 300⟩) (fun _ _ _ _ _ => none)
        "data:image/png;base64,AA" defaultCompressOptions =
      Except.ok ⟨"data:image/png;base64,AA",
        getMimeTypeFromDataUrl "data:image/png;base64,AA",
        approxBase64Bytes "data:image/png;base64,AA",
        approxBase64Bytes "data:image/png;base64,AA", 300, 300, false⟩ ∧
    (∀ out, compressImage (fun _ => some ⟨300, 300⟩) (fun _ _ _ _ _ => none)
        "data:image/png;base64,AA" defaultCompressOptions = Except.ok out →
      out.wasCompressed = false ∧ out.dataUrl = "data:image/png;base64,AA" ∧
      out.mimeType = getMimeTypeFromDataUrl "data:image/png;base64,AA" ∧
      out.width = 300 ∧ out.height = 300 ∧
      compressImage (fun _ => some ⟨300, 300⟩) (fun _ _ _ _ _ => none)
        out.dataUrl defaultCompressOptions = Except.ok out) :=
  compress_within_bounds_noop (fun _ => some ⟨300, 300⟩) (fun _ _ _ _ _ => none)
    "data:image/png;base64,AA" ⟨300, 300⟩ rfl (by decide) (by decide) (by decide)

/-- Claim C10.  Every failure withRetry surfaces is a GeminiAPIError
with code MAX_RETRIES_EXCEEDED and retryable false - the inner
EMPTY_RESPONSE, PARSE_ERROR, NO_IMAGE_DATA and EDIT_FAILED errors never
escape, and none of their messages matches the substring-based
retryability classifier. -/
theorem withRetry_failures_all_wrapped {α : Type} (op : Nat → Except JsError α)
    (context : String) (e : JsError)
    (h : (withRetry op context).2 = Except.error e) :
    e.code = "MAX_RETRIES_EXCEEDED" ∧ e.retryable = false ∧
    isRetryableError emptyResponseItemError = false ∧
    isRetryableError emptyResponseDnaError = false ∧
    isRetryableError parseItemError = false ∧
    isRetryableError parseDnaError = false ∧
    isRetryableError noImageDataError = false ∧
    isRetryableError editFailedError = false := by
  have hcase : ∃ e0, e = maxRetriesExceededError context RETRY_CONFIG.maxRetries e0 := by
    rcases h2 : (withRetryAux op 0 RETRY_CONFIG.maxRetries).2 with e0 | v
    · have : (withRetry op context).2 =
          Except.error (maxRetriesExceededError context RETRY_CONFIG.maxRetries e0) := by
        simp only [withRetry, h2]
      rw [this] at h
      exact ⟨e0, (Except.error.inj h).symm⟩
    · exfalso
      have : (withRetry op context).2 = Except.ok v := by
        simp only [withRetry, h2]
      rw [this] at h
      exact Except.noConfusion h
  obtain ⟨e0, rfl⟩ := hcase
  exact ⟨rfl, rfl, by decide, by decide, by decide, by decide, by decide, by decide⟩

/-- Witness for C10: an operation that always fails with the
PARSE_ERROR GeminiAPIError surfaces only the wrapped
MAX_RETRIES_EXCEEDED error. -/
theorem withRetry_failures_all_wrapped_witness :
    (maxRetriesExceededError "Clothing analysis" RETRY_CONFIG.maxRetries
        parseItemError).code = "MAX_RETRIES_EXCEEDED" ∧
    (maxRetriesExceededError "Clothing analysis" RETRY_CONFIG.maxRetries
        parseItemError).retryable = false ∧
    isRetryableError emptyResponseItemError = false ∧
    isRetryableError emptyResponseDnaError = false ∧
    isRetryableError parseItemError = false ∧
    isRetryableError parseDnaError = false ∧
    isRetryableError noImageDataError = false ∧
    isRetryableError editFailedError = false :=
  withRetry_failures_all_wrapped
    (fun _ => (Except.error parseItemError : Except JsError Unit))
    "Clothing analysis"
    (maxRetriesExceededError "Clothing analysis" RETRY_CONFIG.maxRetries
      parseItemError)
    (by rfl)

end AuraStylist
